import Mathlib

/-!
Shallow embedding of the `rag-teddy` resume-analysis service.

The repository is a FastAPI application (`src/main.py`) with three service
modules: an OCR adapter (`src/services/ocr_service.py`), an LLM adapter
(`src/services/llm_service.py`) and a Mongo usage logger
(`src/services/db_service.py`), plus pydantic DTOs (`src/models/schemas.py`).

External library calls (file reads, Tesseract, pdf2image, the transformers
pipeline, Mongo inserts) are modelled as oracle parameters returning
`Except String α`: `.error e` stands for the call raising a Python exception
whose `str(e)` is `e`, `.ok v` for a normal return of `v`.  All control flow
around those calls (validation loops, try/except blocks, truthiness tests,
string manipulation) is translated directly from the source.

Two defects of the source are load-bearing for several claims and are
modelled explicitly rather than idealized away:

* `main.py` does not parse: lines 90-92 (the extension check) dedent to
  column 9 inside the 8-column body of the validation `for` loop, which
  matches no enclosing indentation level, so importing the module raises
  `IndentationError` and `process_resumes_endpoint` is never defined.  The
  fact is recorded as `main_py_parses = false`; the endpoint definitions
  below model the EVIDENT INTENT of that source (the mis-indented lines
  read as part of the validation loop) so that the divergence between the
  claims and the code can be stated precisely.

* `db_service.py` line 30 truth-tests the handle: `if not logs_collection:`.
  A live pymongo `Collection` implements `__bool__` by raising
  `NotImplementedError` (only `None`-comparison is supported), and the test
  sits BEFORE the `try`, so once the import-time connection succeeded every
  `log_usage` call raises to its caller.  `log_usage` below models this
  faithfully via `collectionTruthy`.
-/

namespace RagTeddy

/-- Opaque stand-in for Python `bytes` values passed between the endpoint and
the adapters; their content is only ever fed to oracle calls. -/
abbrev Bytes := String

/-- Python `str.strip()`: remove leading and trailing whitespace. -/
def pyStrip (s : String) : String :=
  ⟨((s.data.dropWhile Char.isWhitespace).reverse.dropWhile
      Char.isWhitespace).reverse⟩

/-- Python `str.lower()`. -/
def pyLower (s : String) : String :=
  ⟨s.data.map Char.toLower⟩

/-- Python `str.split(sep)` for a one-character separator. -/
def pySplit (sep : Char) (s : String) : List String :=
  (s.data.foldr
    (fun c acc =>
      if c = sep then [] :: acc else (c :: acc.headD []) :: acc.tail)
    [[]]).map fun cs => ⟨cs⟩

/-- Python truthiness of an `Optional[str]` value (`if query:` in
`src/main.py`): `None` and the empty string are falsy. -/
def queryTruthy : Option String → Bool
  | none => false
  | some q => !q.data.isEmpty

/-! ## `src/services/ocr_service.py` -/

/-- Behaviour of the external OCR libraries.
`readImage` models `Image.open` followed by `pytesseract.image_to_string`
(raw text on success, an exception otherwise); `convertPdf` models
`pdf2image.convert_from_bytes`, returning one entry per page, where each
entry models that page image's `save`-to-PNG-buffer step (`.ok png` gives the
buffered bytes, `.error e` stands for the save raising). -/
structure OcrEnv where
  readImage : Bytes → Except String String
  convertPdf : Bytes → Except String (List (Except String Bytes))

/-- Function `extract_text_from_image_bytes` (ocr_service.py, lines 16-26): open the
image, run Tesseract, return `text.strip()`; any exception is caught and the
empty string returned. -/
def extract_text_from_image_bytes (env : OcrEnv) (image_bytes : Bytes) : String :=
  match env.readImage image_bytes with
  | .ok text => pyStrip text
  | .error _ => ""

/-- One iteration of the page loop in `extract_text_from_pdf_bytes`
(ocr_service.py, lines 36-47): the inner `try` saves page `i` to a PNG buffer
and OCRs it, appending a page header plus the text; on an exception it
appends an error header instead. -/
def pdfPageChunk (env : OcrEnv) (i : Nat) (page : Except String Bytes) : String :=
  match page with
  | .ok png =>
      "\n--- Página " ++ toString (i + 1) ++ " ---\n"
        ++ extract_text_from_image_bytes env png
  | .error _ =>
      "\n--- Página " ++ toString (i + 1) ++ " (Erro na extração) ---\n"

/-- The accumulating `for i, image in enumerate(images)` loop of
`extract_text_from_pdf_bytes`, starting from the current `full_text`. -/
def pdfLoop (env : OcrEnv) : Nat → String → List (Except String Bytes) → String
  | _, acc, [] => acc
  | i, acc, pg :: rest => pdfLoop env (i + 1) (acc ++ pdfPageChunk env i pg) rest

/-- Function `extract_text_from_pdf_bytes` (ocr_service.py, lines 28-51): convert the
PDF to page images, OCR each page accumulating headers and text, and return
the accumulated text `strip()`ped; if the conversion itself raises, the
exception is caught and the empty string returned. -/
def extract_text_from_pdf_bytes (env : OcrEnv) (pdf_bytes : Bytes) : String :=
  match env.convertPdf pdf_bytes with
  | .ok images => pyStrip (pdfLoop env 0 "" images)
  | .error _ => ""

/-! ## `src/services/llm_service.py` -/

/-- Behaviour of the loaded tokenizer and model, keyed by the prompt string:
`tokenize` is the outcome of the `tokenizer(prompt, ...)` call (the encoded
tensors are opaque to the model), `generate` the outcome of
`model.generate(...)` followed by `tokenizer.decode`; an `.error` models the
call raising. -/
structure LlmEnv where
  tokenize : String → Except String Unit
  generate : String → Except String String

/-- The module-level handles the services keep across requests:
`text2text_generator` (llm_service.py, lines 15-25; `none` when model loading
failed at import) and `logs_collection` (db_service.py, lines 13-24; `none`
when the Mongo connection failed at import). -/
structure SharedState where
  text2text_generator : Option Unit
  logs_collection : Option Unit
  deriving DecidableEq, Repr

/-- Function `generate_summary` (llm_service.py, lines 28-56): placeholder
error string when the generator handle is `None`; otherwise tokenize the
`summarize:` prompt — the tokenizer call at line 42 sits OUTSIDE the `try`,
so a tokenizer exception escapes to the caller (`.error`) — then generate
inside the `try`, catching any generation exception into a fixed error
string. -/
def generate_summary (s : SharedState) (env : LlmEnv) (text : String) :
    Except String String :=
  match s.text2text_generator with
  | none => .ok "Erro: LLM não disponível para sumarização."
  | some _ =>
      let prompt := "summarize: " ++ text
      match env.tokenize prompt with
      | .error e => .error e
      | .ok _ =>
          match env.generate prompt with
          | .ok summary => .ok summary
          | .error _ => .ok "Erro ao gerar sumário."

/-- Function `analyze_resume_with_query` (llm_service.py, lines 59-85):
placeholder error string when the generator handle is `None`; otherwise
tokenize the question prompt — the tokenizer call at line 73 sits OUTSIDE
the `try`, so a tokenizer exception escapes to the caller (`.error`) — then
generate inside the `try`, catching any generation exception into a fixed
error string. -/
def analyze_resume_with_query (s : SharedState) (env : LlmEnv)
    (resume_text query : String) : Except String String :=
  match s.text2text_generator with
  | none => .ok "Erro: LLM não disponível para análise."
  | some _ =>
      let prompt := "Based on the following resume text, answer the question. Resume text: \"" ++
        resume_text ++ "\". Question: \"" ++ query ++ "\""
      match env.tokenize prompt with
      | .error e => .error e
      | .ok _ =>
          match env.generate prompt with
          | .ok analysis => .ok analysis
          | .error _ => .ok "Erro ao analisar currículo."

/-! ## `src/services/db_service.py` -/

/-- The document built by `log_usage` (db_service.py, lines 34-40); the
wall-clock `timestamp` field is omitted from the model. -/
structure LogDocument where
  request_id : String
  user_id : String
  query_text : Option String
  result_summary_processed : Nat
  result_summary_failed : Nat
  result_summary_operation : String
  deriving DecidableEq, Repr

/-- Outcome of one `log_usage` call: skipped (collection handle unavailable),
written, or insert failed and the exception was caught. -/
inductive LogOutcome where
  | skipped
  | written (doc : LogDocument)
  | failed (doc : LogDocument) (err : String)
  deriving DecidableEq, Repr

/-- The `log_result_summary` dict built in the endpoint (main.py, lines
74-78) and handed to `log_usage`. -/
structure LogSummary where
  files_processed : Nat
  files_failed : Nat
  operation_type : String
  deriving DecidableEq, Repr

/-- Mutable Mongo-side state a `log_usage` call sees: the module-level
`logs_collection` handle and the outcome `insert_one` would have. -/
structure DbState where
  logs_collection : Option Unit
  insertRes : Except String Unit

/-- The `str(e)` of the exception pymongo raises when a `Collection` is
truth-tested. -/
def notImplementedMsg : String :=
  "NotImplementedError: Collection objects do not implement truth value testing or bool(). Please compare with None instead: collection is not None"

/-- Python `bool(logs_collection)` as evaluated by `not logs_collection`
(db_service.py, line 30): `bool(None)` is `False`, but a live pymongo
`Collection` implements `__bool__` by raising `NotImplementedError`, so
truth-testing it raises instead of returning. -/
def collectionTruthy : Option Unit → Except String Bool
  | none => .ok false
  | some _ => .error notImplementedMsg

/-- Function `log_usage` (db_service.py, lines 26-45).  The guard
`if not logs_collection:` truth-tests the handle BEFORE the `try` block:
when the handle is `None` the guard is taken and the function returns early;
when the handle is a live `Collection` the truth test itself raises
`NotImplementedError`, which escapes to the caller (`.error`).  Only if the
truth test returned a genuine falsy `not` — which pymongo never does for a
live collection — would the document be built and inserted with the insert
exception caught; that arm is therefore dead, exactly as lines 34-45 of the
source are. -/
def log_usage (db : DbState) (request_id user_id : String)
    (query_text : Option String) (result_summary : LogSummary) :
    Except String LogOutcome :=
  match collectionTruthy db.logs_collection with
  | .error e => .error e
  | .ok false => .ok .skipped
  | .ok true =>
      let doc : LogDocument :=
        { request_id := request_id
          user_id := user_id
          query_text := query_text
          result_summary_processed := result_summary.files_processed
          result_summary_failed := result_summary.files_failed
          result_summary_operation := result_summary.operation_type }
      match db.insertRes with
      | .ok _ => .ok (.written doc)
      | .error e => .ok (.failed doc e)

/-! ## `src/main.py` -/

/-- Whether `app/main.py` compiles.  It does not: lines 90-92 dedent to
column 9 inside the 8-column `for` body of the validation loop (columns on
the stack are 0, 4, 8, 12), so CPython raises
`IndentationError: unindent does not match any outer indentation level`
while parsing, the module never loads, and none of the endpoint code in
this section ever runs.  The definitions that follow model the evident
intent of that source in order to state how the claims diverge from it. -/
def main_py_parses : Bool := false

/-- Python `', '.join(...)` over a list of strings. -/
def joinComma : List String → String
  | [] => ""
  | [s] => s
  | s :: rest => s ++ ", " ++ joinComma rest

/-- Constant `ALLOWED_EXTENSIONS` (main.py, line 32). -/
def ALLOWED_EXTENSIONS : List String := ["pdf", "png", "jpg", "jpeg"]

/-- Constant `ALLOWED_MIME_TYPES` (main.py, line 33). -/
def ALLOWED_MIME_TYPES : List String := ["application/pdf", "image/png", "image/jpeg"]

/-- Function `get_file_extension` (main.py, lines 36-37):
`filename.split(".")[-1].lower() if "." in filename else None`. -/
def get_file_extension (filename : String) : Option String :=
  if filename.data.contains '.' then
    some (pyLower ((pySplit '.' filename).reverse.headD ""))
  else
    none

/-- An uploaded file as the endpoint sees it: its metadata plus the outcomes
of the `await file.read()` and `await file.close()` calls on it. -/
structure FileUpload where
  filename : String
  content_type : String
  readRes : Except String Bytes
  closeRes : Except String Unit

/-- The service adapters as called by the endpoint
(`extract_text_from_pdf_bytes`, `extract_text_from_image_bytes`,
`generate_summary`, `analyze_resume_with_query`); each call may raise. -/
structure Services where
  ocrPdf : Bytes → Except String String
  ocrImg : Bytes → Except String String
  llmSummary : String → Except String String
  llmAnalyze : String → String → Except String String

/-- One element of `processed_results`: a `ResumeSummary`, a `ResumeAnalysis`
(schemas.py), or the plain error dict appended in the unsupported-type branch
(main.py, lines 111-116). -/
inductive FileResult where
  | resumeSummary (file_name : String) (summary : String)
  | resumeAnalysis (file_name : String) (analysis : String)
  | errorDict (file_name : String) (error : String)
  deriving DecidableEq, Repr

/-- The `file_name` field every result shape carries. -/
def FileResult.file_name : FileResult → String
  | .resumeSummary n _ => n
  | .resumeAnalysis n _ => n
  | .errorDict n _ => n

/-- Result appended for a file in mode-appropriate form: `ResumeAnalysis`
when the query is truthy, `ResumeSummary` otherwise (main.py, lines 126-139
and 165-172). -/
def modeResult (query : Option String) (file_name text : String) : FileResult :=
  if queryTruthy query then .resumeAnalysis file_name text
  else .resumeSummary file_name text

/-- The `except Exception as e` handler of the per-file loop (main.py, lines
158-173): an error message built from `str(e)` is put in the
mode-appropriate result field. -/
def excResult (query : Option String) (file_name e : String) : FileResult :=
  modeResult query file_name ("Erro ao processar o arquivo: " ++ e)

/-- Observable steps of one request, in execution order: the per-file
validation iteration, `file.read()`, the OCR extraction call, the LLM
inference call, the `log_usage` call, and returning the response. -/
inductive Event where
  | validateEvt (filename : String)
  | readEvt (filename : String)
  | extractEvt (filename : String)
  | llmEvt (filename : String)
  | logEvt
  | respondEvt
  deriving DecidableEq, Repr

/-- The tail of the per-file loop body after `text_content` is set (main.py,
lines 120-156): close the file, check for empty extracted text, then run the
mode-appropriate inference; any exception becomes an `excResult`. -/
def processAfterExtract (svc : Services) (query : Option String) (f : FileUpload)
    (text : String) : List Event × FileResult × Bool :=
  match f.closeRes with
  | .error e =>
      ([.readEvt f.filename, .extractEvt f.filename],
        excResult query f.filename e, false)
  | .ok _ =>
      if pyStrip text = "" then
        ([.readEvt f.filename, .extractEvt f.filename],
          modeResult query f.filename "Nenhum texto extraído do arquivo.", false)
      else
        match (if queryTruthy query then svc.llmAnalyze text (query.getD "")
               else svc.llmSummary text) with
        | .error e =>
            ([.readEvt f.filename, .extractEvt f.filename, .llmEvt f.filename],
              excResult query f.filename e, false)
        | .ok out =>
            ([.readEvt f.filename, .extractEvt f.filename, .llmEvt f.filename],
              modeResult query f.filename out, true)

/-- One iteration of the processing loop (main.py, lines 94-175) for file
`f`: the events it emits, the single result it appends, and whether it
counts the file as processed (`true`) or failed (`false`).  Any exception
raised by `read`, extraction, `close` or inference is caught by the
surrounding `try`/`except` and becomes an `excResult`. -/
def processOne (svc : Services) (query : Option String) (f : FileUpload) :
    List Event × FileResult × Bool :=
  match f.readRes with
  | .error e => ([.readEvt f.filename], excResult query f.filename e, false)
  | .ok bs =>
      if f.content_type = "application/pdf" then
        match svc.ocrPdf bs with
        | .error e =>
            ([.readEvt f.filename, .extractEvt f.filename],
              excResult query f.filename e, false)
        | .ok text => processAfterExtract svc query f text
      else if f.content_type = "image/png" ∨ f.content_type = "image/jpeg" then
        match svc.ocrImg bs with
        | .error e =>
            ([.readEvt f.filename, .extractEvt f.filename],
              excResult query f.filename e, false)
        | .ok text => processAfterExtract svc query f text
      else
        ([.readEvt f.filename],
          .errorDict f.filename "Tipo de arquivo não suportado ou erro na leitura inicial.",
          false)

/-- The whole processing loop: events, `processed_results` in append order,
and the final `files_processed` and `files_failed` counters. -/
def processLoop (svc : Services) (query : Option String) :
    List FileUpload → List Event × List FileResult × Nat × Nat
  | [] => ([], [], 0, 0)
  | f :: rest =>
      let step := processOne svc query f
      let tail := processLoop svc query rest
      (step.1 ++ tail.1, step.2.1 :: tail.2.1,
        (if step.2.2 then tail.2.2.1 + 1 else tail.2.2.1),
        (if step.2.2 then tail.2.2.2 else tail.2.2.2 + 1))

/-- An `HTTPException` raised by the endpoint. -/
structure HTTPError where
  status_code : Nat
  detail : String
  deriving DecidableEq, Repr

/-- One iteration of the validation loop (main.py, lines 81-92): reject a
MIME type outside `ALLOWED_MIME_TYPES` (detail text from line 88, the
`', '.join` over the `ALLOWED_MIME_TYPES` set taken in the order of the set
literal at line 33 — Python's set iteration order is unspecified), then a
missing, empty or disallowed filename extension, each with a 400.  Lines
90-92 are the mis-indented hunk that makes the module unparseable (see
`main_py_parses`); they are modelled as their evident intent, the loop-body
extension check. -/
def validateFile (f : FileUpload) : Option HTTPError :=
  if f.content_type ∉ ALLOWED_MIME_TYPES then
    some ⟨400, "Tipo de arquivo inválido: " ++ f.filename ++
      ". Tipos permitidos: " ++ joinComma ALLOWED_MIME_TYPES⟩
  else
    match get_file_extension f.filename with
    | none => some ⟨400, "Extensão de arquivo inválida: " ++ f.filename⟩
    | some ext =>
        if ext = "" ∨ ext ∉ ALLOWED_EXTENSIONS then
          some ⟨400, "Extensão de arquivo inválida: " ++ f.filename⟩
        else none

/-- The validation loop over all files: the validation events that happen
before the first failing file raises, and the `HTTPException` if one does. -/
def validateLoop : List FileUpload → List Event × Option HTTPError
  | [] => ([], none)
  | f :: rest =>
      match validateFile f with
      | some e => ([.validateEvt f.filename], some e)
      | none =>
          let tail := validateLoop rest
          (.validateEvt f.filename :: tail.1, tail.2)

/-- The value returned by the endpoint: an `HTTPException` propagated to the
framework, or a `SummaryResponse` / `AnalysisResponse` (schemas.py, lines
20-27). -/
inductive EndpointResult where
  | httpError (e : HTTPError)
  | summaryResponse (request_id : String) (results : List FileResult)
  | analysisResponse (request_id : String) (query_used : String)
      (results : List FileResult)
  deriving DecidableEq, Repr

/-- The `results` list of a response (empty for an error). -/
def EndpointResult.resultsOf : EndpointResult → List FileResult
  | .httpError _ => []
  | .summaryResponse _ rs => rs
  | .analysisResponse _ _ rs => rs

/-- The form fields of one request to `/process_resumes`. -/
structure RequestInput where
  files : List FileUpload
  user_id : String
  request_id : String
  query : Option String

/-- Everything one request run produces: the event trace, the returned
value, the `log_result_summary` dict if the run reached it, and the
`log_usage` outcome if the run reached it. -/
structure RunResult where
  trace : List Event
  result : EndpointResult
  logSummary : Option LogSummary
  log : Option LogOutcome
  deriving DecidableEq, Repr

/-- Function `process_resumes_endpoint` (main.py, lines 46-185): validate
every file, then process each file in order, then write the usage log, then
build the response; a truthy query selects analysis mode, otherwise summary
mode.  The module never imports (`main_py_parses`), so this definition
models the evident intent of the source, with the faithful `log_usage`:
when the awaited log call raises, the exception is unhandled and the run
ends in a 500 instead of a response. -/
def process_resumes_endpoint (svc : Services) (db : DbState)
    (req : RequestInput) : RunResult :=
  let val := validateLoop req.files
  match val.2 with
  | some e => { trace := val.1, result := .httpError e, logSummary := none, log := none }
  | none =>
      let proc := processLoop svc req.query req.files
      let summary : LogSummary :=
        { files_processed := proc.2.2.1
          files_failed := proc.2.2.2
          operation_type := if queryTruthy req.query then "analysis" else "summary" }
      match log_usage db req.request_id req.user_id req.query summary with
      | .error e =>
          { trace := val.1 ++ proc.1 ++ [.logEvt]
            result := .httpError ⟨500, e⟩
            logSummary := some summary
            log := none }
      | .ok lg =>
          { trace := val.1 ++ proc.1 ++ [.logEvt, .respondEvt]
            result :=
              if queryTruthy req.query then
                .analysisResponse req.request_id (req.query.getD "") proc.2.1
              else
                .summaryResponse req.request_id proc.2.1
            logSummary := some summary
            log := some lg }

/-- The full system with the concrete service adapters plugged into the
endpoint: the shared handles determine both the LLM adapter's behaviour and
the logger's collection handle. -/
def mkServices (s : SharedState) (oenv : OcrEnv) (lenv : LlmEnv) : Services :=
  { ocrPdf := fun bs => .ok (extract_text_from_pdf_bytes oenv bs)
    ocrImg := fun bs => .ok (extract_text_from_image_bytes oenv bs)
    llmSummary := fun t => generate_summary s lenv t
    llmAnalyze := fun t q => analyze_resume_with_query s lenv t q }

/-- One request against the deployed system: the endpoint wired to the real
adapters, whose cross-request state is exactly `SharedState`. -/
def systemRun (s : SharedState) (oenv : OcrEnv) (lenv : LlmEnv)
    (insertRes : Except String Unit) (req : RequestInput) : RunResult :=
  process_resumes_endpoint (mkServices s oenv lenv)
    { logs_collection := s.logs_collection, insertRes := insertRes } req

/-! ## Derived predicates used to state the claims -/

/-- Truth of `x.isAnalysis`: the endpoint returned an `AnalysisResponse`. -/
def EndpointResult.isAnalysis : EndpointResult → Bool
  | .analysisResponse _ _ _ => true
  | _ => false

/-- The situation "the dispatched OCR adapter maps the bytes `bs` read from
file `f` to the text `text`". -/
def extractsTo (svc : Services) (f : FileUpload) (bs text : String) : Prop :=
  (f.content_type = "application/pdf" ∧ svc.ocrPdf bs = .ok text) ∨
    ((f.content_type = "image/png" ∨ f.content_type = "image/jpeg") ∧
      svc.ocrImg bs = .ok text)

/-- The situation "the extraction call for file `f` raises exception `e`":
the read succeeded and the dispatched OCR adapter raises. -/
def extractionRaises (svc : Services) (f : FileUpload) (e : String) : Prop :=
  ∃ bs, f.readRes = .ok bs ∧
    ((f.content_type = "application/pdf" ∧ svc.ocrPdf bs = .error e) ∨
      ((f.content_type = "image/png" ∨ f.content_type = "image/jpeg") ∧
        svc.ocrImg bs = .error e))

/-- The situation "the inference call for file `f` raises exception `e`":
read, extraction and close succeeded, the extracted text is not blank, and
the mode-appropriate LLM call raises. -/
def inferenceRaises (svc : Services) (query : Option String) (f : FileUpload)
    (e : String) : Prop :=
  ∃ bs text, f.readRes = .ok bs ∧ f.closeRes = .ok () ∧ ¬pyStrip text = "" ∧
    extractsTo svc f bs text ∧
    (if queryTruthy query then svc.llmAnalyze text (query.getD "")
     else svc.llmSummary text) = .error e

/-- Concatenation of a list of text chunks, used to state what the PDF page
loop accumulates. -/
def concatTexts : List String → String
  | [] => ""
  | s :: rest => s ++ concatTexts rest

/-! ## Concrete fixtures for witnesses and counterexamples -/

/-- Adapters that always succeed. -/
def svcStub : Services :=
  { ocrPdf := fun _ => .ok "texto extraído do pdf"
    ocrImg := fun _ => .ok "texto extraído da imagem"
    llmSummary := fun _ => .ok "um sumário"
    llmAnalyze := fun _ _ => .ok "uma análise" }

/-- Adapters whose PDF extraction raises. -/
def svcPdfRaises : Services :=
  { svcStub with ocrPdf := fun _ => .error "pdf corrompido" }

/-- Adapters whose PDF extraction yields only whitespace. -/
def svcBlankPdf : Services :=
  { svcStub with ocrPdf := fun _ => .ok "  \n " }

/-- Db state with a live collection handle and a succeeding insert. -/
def dbStub : DbState := { logs_collection := some (), insertRes := .ok () }

/-- Db state whose import-time Mongo connection failed (handle is `None`). -/
def dbNone : DbState := { logs_collection := none, insertRes := .ok () }

/-- A well-formed PDF upload. -/
def pdfFile : FileUpload :=
  { filename := "cv.pdf", content_type := "application/pdf"
    readRes := .ok "pdfbytes", closeRes := .ok () }

/-- A well-formed PNG upload. -/
def pngFile : FileUpload :=
  { filename := "foto.png", content_type := "image/png"
    readRes := .ok "pngbytes", closeRes := .ok () }

/-- An upload with a disallowed MIME type and extension. -/
def badFile : FileUpload :=
  { filename := "virus.exe", content_type := "application/octet-stream"
    readRes := .ok "exebytes", closeRes := .ok () }

/-- A two-file request without a query. -/
def reqNoQuery : RequestInput :=
  { files := [pdfFile, pngFile], user_id := "fabio", request_id := "req-1"
    query := none }

/-- A request with a non-empty query. -/
def reqQuery : RequestInput :=
  { files := [pdfFile, pngFile], user_id := "fabio", request_id := "req-2"
    query := some "Python e AWS" }

/-- A request whose query form field is present but empty. -/
def reqEmptyQuery : RequestInput :=
  { files := [pdfFile], user_id := "fabio", request_id := "req-3"
    query := some "" }

/-- A request containing an invalid file. -/
def reqBad : RequestInput :=
  { files := [pdfFile, badFile], user_id := "fabio", request_id := "req-4"
    query := none }

/-- OCR environment whose PDF conversion yields one good and one bad page. -/
def oenvStub : OcrEnv :=
  { readImage := fun bs => .ok ("  ocr de " ++ bs ++ "  ")
    convertPdf := fun _ => .ok [.ok "png1", .error "falha no save"] }

/-- Tokenizer and generation environment that always succeeds. -/
def lenvStub : LlmEnv :=
  { tokenize := fun _ => .ok ()
    generate := fun _ => .ok "saída do modelo" }

/-- OCR environment in which both the image read and the PDF conversion
raise. -/
def oenvFail : OcrEnv :=
  { readImage := fun _ => .error "imagem ilegível"
    convertPdf := fun _ => .error "conversão falhou" }

/-- Shared handles with both the model and the collection loaded. -/
def sharedBoth : SharedState :=
  { text2text_generator := some (), logs_collection := some () }

/-- Shared handles with the model loaded but the Mongo connection failed. -/
def sharedNoDb : SharedState :=
  { text2text_generator := some (), logs_collection := none }

/-! ## Helper lemmas -/

/-- A mode-appropriate result carries the given file name. -/
theorem modeResult_file_name (query : Option String) (n t : String) :
    (modeResult query n t).file_name = n := by
  unfold modeResult
  split <;> rfl

/-- An exception-handler result carries the given file name. -/
theorem excResult_file_name (query : Option String) (n e : String) :
    (excResult query n e).file_name = n :=
  modeResult_file_name query n _

/-- Every result shape produced by the tail of the loop body carries the
processed file's name. -/
theorem processAfterExtract_file_name (svc : Services) (query : Option String)
    (f : FileUpload) (text : String) :
    ((processAfterExtract svc query f text).2.1).file_name = f.filename := by
  unfold processAfterExtract
  repeat' split
  all_goals first
    | apply excResult_file_name
    | apply modeResult_file_name

/-- Every result appended by one loop iteration carries that file's name. -/
theorem processOne_file_name (svc : Services) (query : Option String)
    (f : FileUpload) :
    ((processOne svc query f).2.1).file_name = f.filename := by
  unfold processOne
  repeat' split
  all_goals first
    | apply excResult_file_name
    | apply processAfterExtract_file_name
    | rfl


/-- Every event of the tail of the loop body concerns the processed file and
is a read, extract or LLM event. -/
theorem processAfterExtract_events (svc : Services) (query : Option String)
    (f : FileUpload) (text : String) :
    ∀ ev ∈ (processAfterExtract svc query f text).1,
      ev = .readEvt f.filename ∨ ev = .extractEvt f.filename ∨
        ev = .llmEvt f.filename := by
  unfold processAfterExtract
  repeat' split
  all_goals intro ev hev
  all_goals simp_all
  all_goals try tauto

/-- Every event of one loop iteration concerns the processed file and is a
read, extract or LLM event. -/
theorem processOne_events (svc : Services) (query : Option String)
    (f : FileUpload) :
    ∀ ev ∈ (processOne svc query f).1,
      ev = .readEvt f.filename ∨ ev = .extractEvt f.filename ∨
        ev = .llmEvt f.filename := by
  unfold processOne
  repeat' split
  all_goals intro ev hev
  all_goals first
    | exact processAfterExtract_events svc query f _ ev hev
    | (simp_all; try tauto)

/-- The processing loop distributes over list append, concatenating events
and results and adding the two counters. -/
theorem processLoop_append (svc : Services) (query : Option String)
    (xs ys : List FileUpload) :
    processLoop svc query (xs ++ ys) =
      ((processLoop svc query xs).1 ++ (processLoop svc query ys).1,
        (processLoop svc query xs).2.1 ++ (processLoop svc query ys).2.1,
        (processLoop svc query xs).2.2.1 + (processLoop svc query ys).2.2.1,
        (processLoop svc query xs).2.2.2 + (processLoop svc query ys).2.2.2) := by
  induction xs with
  | nil => simp [processLoop]
  | cons f rest ih =>
      by_cases hb : (processOne svc query f).2.2 <;>
        simp [processLoop, ih, hb, List.append_assoc, Prod.mk.injEq] <;>
        try omega

/-- The loop appends exactly one result per file, in order, carrying the
files' names. -/
theorem processLoop_file_names (svc : Services) (query : Option String)
    (l : List FileUpload) :
    ((processLoop svc query l).2.1).map FileResult.file_name =
      l.map FileUpload.filename := by
  induction l with
  | nil => simp [processLoop]
  | cons f rest ih => simp [processLoop, ih, processOne_file_name]

/-- Every file is counted exactly once: the two counters sum to the number
of files. -/
theorem processLoop_counts (svc : Services) (query : Option String)
    (l : List FileUpload) :
    (processLoop svc query l).2.2.1 + (processLoop svc query l).2.2.2 =
      l.length := by
  induction l with
  | nil => simp [processLoop]
  | cons f rest ih =>
      simp only [processLoop, List.length_cons]
      by_cases hb : (processOne svc query f).2.2 <;> simp [hb] <;> omega

/-- Every event of the processing loop is a read, extract or LLM event. -/
theorem processLoop_events (svc : Services) (query : Option String)
    (l : List FileUpload) :
    ∀ ev ∈ (processLoop svc query l).1, ∃ n,
      ev = .readEvt n ∨ ev = .extractEvt n ∨ ev = .llmEvt n := by
  induction l with
  | nil => simp [processLoop]
  | cons f rest ih =>
      intro ev hev
      simp only [processLoop, List.mem_append] at hev
      rcases hev with hev | hev
      · exact ⟨f.filename, processOne_events svc query f ev hev⟩
      · exact ih ev hev

/-- Every `HTTPException` produced by single-file validation has status 400. -/
theorem validateFile_status (f : FileUpload) (e : HTTPError) :
    validateFile f = some e → e.status_code = 400 := by
  unfold validateFile
  repeat' split
  all_goals intro h
  all_goals first
    | (injection h with h2; rw [← h2])
    | exact Option.noConfusion h

/-- Every `HTTPException` raised by the validation loop has status 400. -/
theorem validateLoop_status (l : List FileUpload) (e : HTTPError) :
    (validateLoop l).2 = some e → e.status_code = 400 := by
  induction l with
  | nil => simp [validateLoop]
  | cons f rest ih =>
      simp only [validateLoop]
      cases hv : validateFile f with
      | some e0 =>
          intro h
          have h2 : e0 = e := by simpa using h
          exact h2 ▸ validateFile_status f e0 hv
      | none => simpa using ih

/-- The validation loop passes exactly when every file passes validation. -/
theorem validateLoop_none_iff (l : List FileUpload) :
    (validateLoop l).2 = none ↔ ∀ f ∈ l, validateFile f = none := by
  induction l with
  | nil => simp [validateLoop]
  | cons f rest ih =>
      simp only [validateLoop, List.mem_cons]
      cases hv : validateFile f with
      | some e0 => simp [hv]
      | none =>
          simp only [ih]
          constructor
          · rintro h g (rfl | hg)
            · exact hv
            · exact h g hg
          · intro h g hg
            exact h g (Or.inr hg)

/-- Every event of the validation loop is a validation event. -/
theorem validateLoop_events (l : List FileUpload) :
    ∀ ev ∈ (validateLoop l).1, ∃ n, ev = .validateEvt n := by
  induction l with
  | nil => simp [validateLoop]
  | cons f rest ih =>
      intro ev hev
      simp only [validateLoop] at hev
      cases hv : validateFile f with
      | some e0 =>
          rw [hv] at hev
          simp only [List.mem_singleton] at hev
          exact ⟨f.filename, hev⟩
      | none =>
          rw [hv] at hev
          simp only [List.mem_cons] at hev
          rcases hev with rfl | hev
          · exact ⟨f.filename, rfl⟩
          · exact ih ev hev

/-- When validation passes, the validation loop visits every file in upload
order. -/
theorem validateLoop_none_trace (l : List FileUpload)
    (h : (validateLoop l).2 = none) :
    (validateLoop l).1 = l.map (fun f => Event.validateEvt f.filename) := by
  induction l with
  | nil => simp [validateLoop]
  | cons f rest ih =>
      have hall := (validateLoop_none_iff (f :: rest)).1 h
      have hv : validateFile f = none := hall f (List.mem_cons_self f rest)
      have hrest : (validateLoop rest).2 = none :=
        (validateLoop_none_iff rest).2 fun g hg => hall g (List.mem_cons_of_mem f hg)
      simp [validateLoop, hv, ih hrest]

/-- With a `None` collection handle the guard returns early and no exception
escapes. -/
theorem log_usage_none (db : DbState) (h : db.logs_collection = none)
    (r u : String) (q : Option String) (s : LogSummary) :
    log_usage db r u q s = .ok .skipped := by
  simp [log_usage, collectionTruthy, h]

/-- With a live collection handle the truth test raises before the `try`,
and the exception escapes to the caller. -/
theorem log_usage_live (db : DbState) (h : db.logs_collection = some ())
    (r u : String) (q : Option String) (s : LogSummary) :
    log_usage db r u q s = .error notImplementedMsg := by
  simp [log_usage, collectionTruthy, h]

/-- An omitted query is falsy. -/
theorem queryTruthy_none : queryTruthy none = false := rfl

/-- A provided empty query is falsy. -/
theorem queryTruthy_empty : queryTruthy (some "") = false := rfl

/-- A non-empty provided query is truthy. -/
theorem queryTruthy_some (q : String) (h : q ≠ "") : queryTruthy (some q) = true := by
  have hd : q.data ≠ [] := by
    intro hnil
    exact h (by cases q; simp_all)
  simp [queryTruthy, hd]

/-- When the read succeeds and extraction returns text, one loop iteration
reduces to the tail of the loop body on that text. -/
theorem processOne_extract_ok (svc : Services) (query : Option String)
    (f : FileUpload) (bs text : String) (hread : f.readRes = .ok bs)
    (hext : extractsTo svc f bs text) :
    processOne svc query f = processAfterExtract svc query f text := by
  rcases hext with ⟨hct, hocr⟩ | ⟨hct | hct, hocr⟩ <;>
    simp [processOne, hread, hct, hocr]

/-- A fully successful iteration: result in the mode-appropriate field,
counted as processed. -/
theorem processOne_success (svc : Services) (query : Option String)
    (f : FileUpload) (bs text out : String) (hread : f.readRes = .ok bs)
    (hext : extractsTo svc f bs text) (hclose : f.closeRes = .ok ())
    (htext : ¬pyStrip text = "")
    (hllm : (if queryTruthy query then svc.llmAnalyze text (query.getD "")
             else svc.llmSummary text) = .ok out) :
    processOne svc query f =
      ([.readEvt f.filename, .extractEvt f.filename, .llmEvt f.filename],
        modeResult query f.filename out, true) := by
  rw [processOne_extract_ok svc query f bs text hread hext]
  simp [processAfterExtract, hclose, htext, hllm]

/-- An iteration whose extraction raises: exception result, counted as
failed, no LLM event. -/
theorem processOne_extract_raise (svc : Services) (query : Option String)
    (f : FileUpload) (e : String) (h : extractionRaises svc f e) :
    processOne svc query f =
      ([.readEvt f.filename, .extractEvt f.filename],
        excResult query f.filename e, false) := by
  obtain ⟨bs, hread, hcase⟩ := h
  rcases hcase with ⟨hct, hocr⟩ | ⟨hct | hct, hocr⟩ <;>
    simp [processOne, hread, hct, hocr]

/-- An iteration whose inference raises: exception result, counted as
failed. -/
theorem processOne_infer_raise (svc : Services) (query : Option String)
    (f : FileUpload) (e : String) (h : inferenceRaises svc query f e) :
    processOne svc query f =
      ([.readEvt f.filename, .extractEvt f.filename, .llmEvt f.filename],
        excResult query f.filename e, false) := by
  obtain ⟨bs, text, hread, hclose, htext, hext, hllm⟩ := h
  rw [processOne_extract_ok svc query f bs text hread hext]
  simp [processAfterExtract, hclose, htext, hllm]

/-- An iteration whose extracted text is blank: fixed placeholder result,
counted as failed, no LLM event. -/
theorem processOne_blank (svc : Services) (query : Option String)
    (f : FileUpload) (bs text : String) (hread : f.readRes = .ok bs)
    (hext : extractsTo svc f bs text) (hclose : f.closeRes = .ok ())
    (htext : pyStrip text = "") :
    processOne svc query f =
      ([.readEvt f.filename, .extractEvt f.filename],
        modeResult query f.filename "Nenhum texto extraído do arquivo.", false) := by
  rw [processOne_extract_ok svc query f bs text hread hext]
  simp [processAfterExtract, hclose, htext]

/-- Unfolding of a run whose validation fails. -/
theorem endpoint_invalid_eq (svc : Services) (db : DbState) (req : RequestInput)
    (e : HTTPError) (hval : (validateLoop req.files).2 = some e) :
    process_resumes_endpoint svc db req =
      { trace := (validateLoop req.files).1, result := .httpError e
        logSummary := none, log := none } := by
  simp only [process_resumes_endpoint, hval]

/-- Unfolding of a run whose validation passes and whose collection handle
is `None`: full trace, normal response, the summary dict, a skipped log. -/
theorem endpoint_valid_none_eq (svc : Services) (db : DbState)
    (req : RequestInput) (hval : (validateLoop req.files).2 = none)
    (hdb : db.logs_collection = none) :
    process_resumes_endpoint svc db req =
      { trace := (validateLoop req.files).1 ++
          (processLoop svc req.query req.files).1 ++ [.logEvt, .respondEvt]
        result :=
          if queryTruthy req.query then
            .analysisResponse req.request_id (req.query.getD "")
              (processLoop svc req.query req.files).2.1
          else
            .summaryResponse req.request_id
              (processLoop svc req.query req.files).2.1
        logSummary := some
          { files_processed := (processLoop svc req.query req.files).2.2.1
            files_failed := (processLoop svc req.query req.files).2.2.2
            operation_type := if queryTruthy req.query then "analysis" else "summary" }
        log := some .skipped } := by
  simp only [process_resumes_endpoint, hval, log_usage_none db hdb]

/-- Unfolding of a run whose validation passes but whose collection handle
is live: the log call raises `NotImplementedError`, so the run ends at the
log step with an unhandled exception (a 500, not the claimed response). -/
theorem endpoint_valid_live_eq (svc : Services) (db : DbState)
    (req : RequestInput) (hval : (validateLoop req.files).2 = none)
    (hdb : db.logs_collection = some ()) :
    process_resumes_endpoint svc db req =
      { trace := (validateLoop req.files).1 ++
          (processLoop svc req.query req.files).1 ++ [.logEvt]
        result := .httpError ⟨500, notImplementedMsg⟩
        logSummary := some
          { files_processed := (processLoop svc req.query req.files).2.2.1
            files_failed := (processLoop svc req.query req.files).2.2.2
            operation_type := if queryTruthy req.query then "analysis" else "summary" }
        log := none } := by
  simp only [process_resumes_endpoint, hval, log_usage_live db hdb]

/-- Two database states whose `log_usage` behaviour agrees give identical
runs. -/
theorem endpoint_congr_db (svc : Services) (db1 db2 : DbState)
    (req : RequestInput)
    (h : ∀ s : LogSummary,
      log_usage db1 req.request_id req.user_id req.query s =
        log_usage db2 req.request_id req.user_id req.query s) :
    process_resumes_endpoint svc db1 req =
      process_resumes_endpoint svc db2 req := by
  cases hval : (validateLoop req.files).2 with
  | some e =>
      rw [endpoint_invalid_eq svc db1 req e hval,
        endpoint_invalid_eq svc db2 req e hval]
  | none =>
      simp only [process_resumes_endpoint, hval]
      rw [h]

/-- The accumulator of the PDF page loop factors out. -/
theorem pdfLoop_acc (env : OcrEnv) (l : List (Except String Bytes)) :
    ∀ (i : Nat) (acc : String), pdfLoop env i acc l = acc ++ pdfLoop env i "" l := by
  induction l with
  | nil =>
      intro i acc
      simp [pdfLoop]
  | cons pg rest ih =>
      intro i acc
      rw [pdfLoop, pdfLoop]
      rw [ih (i + 1) (acc ++ pdfPageChunk env i pg),
        ih (i + 1) ("" ++ pdfPageChunk env i pg)]
      have h0 : ("" : String) ++ pdfPageChunk env i pg = pdfPageChunk env i pg := rfl
      rw [h0, String.append_assoc]

/-- The PDF page loop concatenates one chunk per page, pages enumerated in
order from the given index. -/
theorem pdfLoop_spec (env : OcrEnv) (l : List (Except String Bytes)) :
    ∀ i : Nat, pdfLoop env i "" l =
      concatTexts ((l.enumFrom i).map fun p => pdfPageChunk env p.1 p.2) := by
  induction l with
  | nil => intro i; rfl
  | cons pg rest ih =>
      intro i
      rw [pdfLoop, pdfLoop_acc env rest (i + 1) ("" ++ pdfPageChunk env i pg)]
      rw [ih (i + 1)]
      rfl

/-! ## Claim C1 -/

/-- C1 (code_bug): the module that defines the endpoint never loads
(`main_py_parses = false`, the IndentationError at main.py lines 90-92), so
no request ever receives any response.  The remaining conjuncts verify the
claim against the evident intent of that source, restricted to a `None`
collection handle (a live one makes the log write raise, see C6): a provided
NON-EMPTY query yields an `AnalysisResponse` echoing the query and the
request id over the per-file loop results; a provided EMPTY query behaves
like an omitted one and yields a `SummaryResponse` (Python truthiness, a
second slip against the claim's provided/omitted dichotomy); and per file,
successful extraction with non-blank text is answered by the LLM over that
file's extracted text. -/
theorem claim1_query_dispatch (svc : Services) (db : DbState)
    (req : RequestInput) (hval : (validateLoop req.files).2 = none)
    (hdb : db.logs_collection = none) :
    main_py_parses = false ∧
    (∀ q : String, req.query = some q → q ≠ "" →
      (process_resumes_endpoint svc db req).result =
        .analysisResponse req.request_id q
          (processLoop svc req.query req.files).2.1) ∧
    (req.query = none ∨ req.query = some "" →
      (process_resumes_endpoint svc db req).result =
        .summaryResponse req.request_id
          (processLoop svc req.query req.files).2.1) ∧
    (∀ (f : FileUpload) (bs text out : String),
      f.readRes = .ok bs → f.closeRes = .ok () →
      extractsTo svc f bs text → ¬pyStrip text = "" →
      (∀ q, req.query = some q → q ≠ "" → svc.llmAnalyze text q = .ok out →
        (processOne svc req.query f).2.1 = .resumeAnalysis f.filename out) ∧
      (req.query = none ∨ req.query = some "" →
        svc.llmSummary text = .ok out →
        (processOne svc req.query f).2.1 = .resumeSummary f.filename out)) := by
  have hrun := endpoint_valid_none_eq svc db req hval hdb
  refine ⟨rfl, ?_, ?_, ?_⟩
  · intro q hq hqne
    rw [hrun]
    simp [hq, queryTruthy_some q hqne]
  · rintro (hq | hq) <;> rw [hrun] <;>
      simp [hq, queryTruthy_none, queryTruthy_empty]
  · intro f bs text out hread hclose hext htext
    constructor
    · intro q hq hqne hout
      have ht : queryTruthy req.query = true := hq ▸ queryTruthy_some q hqne
      have hllm : (if queryTruthy req.query then
          svc.llmAnalyze text (req.query.getD "")
          else svc.llmSummary text) = .ok out := by
        rw [hq]
        simp [queryTruthy_some q hqne, hout]
      rw [processOne_success svc req.query f bs text out hread hext hclose
        htext hllm]
      simp [modeResult, ht]
    · rintro (hq | hq) hout
      all_goals
        have ht : queryTruthy req.query = false := by rw [hq]; rfl
      all_goals
        have hllm : (if queryTruthy req.query then
            svc.llmAnalyze text (req.query.getD "")
            else svc.llmSummary text) = .ok out := by simp [ht, hout]
      all_goals
        rw [processOne_success svc req.query f bs text out hread hext hclose
          htext hllm]
      all_goals simp [modeResult, ht]

/-- Witness for C1's theorem at concrete requests against a `None` handle: a
non-empty query yields the analysis response, a provided empty query the
summary response. -/
theorem claim1_query_dispatch_witness :
    (validateLoop reqQuery.files).2 = none ∧
    (process_resumes_endpoint svcStub dbNone reqQuery).result =
      .analysisResponse reqQuery.request_id "Python e AWS"
        (processLoop svcStub reqQuery.query reqQuery.files).2.1 ∧
    (process_resumes_endpoint svcStub dbNone reqEmptyQuery).result =
      .summaryResponse reqEmptyQuery.request_id
        (processLoop svcStub reqEmptyQuery.query reqEmptyQuery.files).2.1 :=
  ⟨rfl,
    (claim1_query_dispatch svcStub dbNone reqQuery rfl rfl).2.1 "Python e AWS"
      rfl (by decide),
    (claim1_query_dispatch svcStub dbNone reqEmptyQuery rfl rfl).2.2.1
      (Or.inr rfl)⟩

/-! ## Claim C2 -/

/-- The loop produces as many results as there are files. -/
theorem processLoop_length (svc : Services) (query : Option String)
    (l : List FileUpload) :
    (processLoop svc query l).2.1.length = l.length := by
  have h := congrArg List.length (processLoop_file_names svc query l)
  simpa using h

/-- C2 (code_bug): the endpoint is never defined (`main_py_parses = false`),
so the claimed invariant holds of no run of the program.  Against the
evident intent, and restricted to a `None` collection handle (a live one
turns the response into a 500, see C6): the response carries exactly one
result per uploaded file, in upload order, each carrying that file's name,
and the summary dict handed to the logger satisfies
`files_processed + files_failed = number of files`. -/
theorem claim2_one_result_per_file (svc : Services) (db : DbState)
    (req : RequestInput) (hval : (validateLoop req.files).2 = none)
    (hdb : db.logs_collection = none) :
    main_py_parses = false ∧
    ((process_resumes_endpoint svc db req).result.resultsOf).map
        FileResult.file_name = req.files.map FileUpload.filename ∧
    ((process_resumes_endpoint svc db req).result.resultsOf).length =
      req.files.length ∧
    (∃ s, (process_resumes_endpoint svc db req).logSummary = some s ∧
      s.files_processed + s.files_failed = req.files.length) := by
  have hrun := endpoint_valid_none_eq svc db req hval hdb
  rw [hrun]
  refine ⟨rfl, ?_, ?_, ?_⟩
  · by_cases hq : queryTruthy req.query <;>
      simp [hq, EndpointResult.resultsOf, processLoop_file_names]
  · by_cases hq : queryTruthy req.query <;>
      simp [hq, EndpointResult.resultsOf, processLoop_length]
  · exact ⟨_, rfl, processLoop_counts svc req.query req.files⟩

/-- Witness for C2's theorem at the concrete two-file request `reqNoQuery`
against a `None` handle. -/
theorem claim2_one_result_per_file_witness :
    (validateLoop reqNoQuery.files).2 = none ∧
    ((process_resumes_endpoint svcStub dbNone reqNoQuery).result.resultsOf).map
        FileResult.file_name = reqNoQuery.files.map FileUpload.filename ∧
    (∃ s, (process_resumes_endpoint svcStub dbNone reqNoQuery).logSummary =
        some s ∧
      s.files_processed + s.files_failed = reqNoQuery.files.length) :=
  ⟨rfl, (claim2_one_result_per_file svcStub dbNone reqNoQuery rfl rfl).2.1,
    (claim2_one_result_per_file svcStub dbNone reqNoQuery rfl rfl).2.2.2⟩

/-! ## Claim C3 -/

/-- C3 (code_bug): the validation hunk the claim describes is itself the
syntax error that keeps main.py from loading (`main_py_parses = false`), so
no request is ever rejected with 400.  Against the evident intent of lines
81-92: a request containing a file with a disallowed MIME type, or whose
lowercased filename extension is missing or disallowed, is rejected with
HTTP 400; its trace holds validation events only (so no file is read,
extracted or sent to inference), and neither the summary dict nor a usage
log write is produced. -/
theorem claim3_invalid_file_rejected (svc : Services) (db : DbState)
    (req : RequestInput)
    (h : ∃ f ∈ req.files, f.content_type ∉ ALLOWED_MIME_TYPES ∨
      ∀ ext ∈ get_file_extension f.filename, ext ∉ ALLOWED_EXTENSIONS) :
    main_py_parses = false ∧
    ∃ e, (process_resumes_endpoint svc db req).result = .httpError e ∧
      e.status_code = 400 ∧
      (∀ ev ∈ (process_resumes_endpoint svc db req).trace,
        ∃ n, ev = .validateEvt n) ∧
      (process_resumes_endpoint svc db req).logSummary = none ∧
      (process_resumes_endpoint svc db req).log = none := by
  obtain ⟨f, hf, hbad⟩ := h
  have hvf : validateFile f ≠ none := by
    unfold validateFile
    rcases hbad with hmime | hext
    · simp [hmime]
    · by_cases hm : f.content_type ∉ ALLOWED_MIME_TYPES
      · simp [hm]
      · rw [if_neg hm]
        cases hge : get_file_extension f.filename with
        | none => simp
        | some ext =>
            have hna : ext ∉ ALLOWED_EXTENSIONS := hext ext (by simp [hge])
            simp [hna]
  have hvl : (validateLoop req.files).2 ≠ none := by
    intro hnone
    exact hvf ((validateLoop_none_iff req.files).1 hnone f hf)
  obtain ⟨e, he⟩ : ∃ e, (validateLoop req.files).2 = some e := by
    cases hx : (validateLoop req.files).2 with
    | none => exact absurd hx hvl
    | some e0 => exact ⟨e0, rfl⟩
  rw [endpoint_invalid_eq svc db req e he]
  exact ⟨rfl, e, rfl, validateLoop_status req.files e he,
    fun ev hev => validateLoop_events req.files ev hev, rfl, rfl⟩

/-- Witness for C3 at the concrete request `reqBad`, whose second file has a
disallowed MIME type. -/
theorem claim3_invalid_file_rejected_witness :
    (badFile ∈ reqBad.files ∧ badFile.content_type ∉ ALLOWED_MIME_TYPES) ∧
    main_py_parses = false ∧
    ∃ e, (process_resumes_endpoint svcStub dbStub reqBad).result =
        .httpError e ∧
      e.status_code = 400 ∧
      (∀ ev ∈ (process_resumes_endpoint svcStub dbStub reqBad).trace,
        ∃ n, ev = .validateEvt n) ∧
      (process_resumes_endpoint svcStub dbStub reqBad).logSummary = none ∧
      (process_resumes_endpoint svcStub dbStub reqBad).log = none :=
  ⟨⟨by simp [reqBad], by decide⟩,
    claim3_invalid_file_rejected svcStub dbStub reqBad
      ⟨badFile, by simp [reqBad], Or.inl (by decide)⟩⟩

/-! ## Claim C4 -/

/-- C4 (code_bug): the per-file loop lives in the module that never imports
(`main_py_parses = false`), so it never appends anything.  Against the
evident intent: when the extraction or the inference call for file `f`
raises, the loop appends for `f` exactly one result carrying `f`'s name with
the error string in the mode-appropriate field, counts `f` as failed, and
the files before and after `f` are processed exactly as they would be on
their own. -/
theorem claim4_per_file_error_isolation (svc : Services) (query : Option String)
    (pre post : List FileUpload) (f : FileUpload) (e : String)
    (h : extractionRaises svc f e ∨ inferenceRaises svc query f e) :
    main_py_parses = false ∧
    (processLoop svc query (pre ++ f :: post)).2.1 =
      (processLoop svc query pre).2.1 ++
        (if queryTruthy query then
          FileResult.resumeAnalysis f.filename
            ("Erro ao processar o arquivo: " ++ e)
        else
          FileResult.resumeSummary f.filename
            ("Erro ao processar o arquivo: " ++ e)) ::
        (processLoop svc query post).2.1 ∧
    (processLoop svc query (pre ++ f :: post)).2.2.2 =
      (processLoop svc query pre).2.2.2 + (processLoop svc query post).2.2.2
        + 1 ∧
    (processLoop svc query (pre ++ f :: post)).2.2.1 =
      (processLoop svc query pre).2.2.1 + (processLoop svc query post).2.2.1 := by
  have hone : (processOne svc query f).2 =
      (excResult query f.filename e, false) := by
    rcases h with h | h
    · rw [processOne_extract_raise svc query f e h]
    · rw [processOne_infer_raise svc query f e h]
  refine ⟨rfl, ?_, ?_, ?_⟩ <;>
    simp [processLoop_append, processLoop, hone, excResult, modeResult] <;>
    try omega

/-- Witness for C4: with `svcPdfRaises` the PDF extraction of `pdfFile`
raises, and processing `[pngFile, pdfFile, pngFile]` isolates the failure. -/
theorem claim4_per_file_error_isolation_witness :
    extractionRaises svcPdfRaises pdfFile "pdf corrompido" ∧
    main_py_parses = false ∧
    (processLoop svcPdfRaises none ([pngFile] ++ pdfFile :: [pngFile])).2.1 =
      (processLoop svcPdfRaises none [pngFile]).2.1 ++
        (if queryTruthy none then
          FileResult.resumeAnalysis pdfFile.filename
            ("Erro ao processar o arquivo: " ++ "pdf corrompido")
        else
          FileResult.resumeSummary pdfFile.filename
            ("Erro ao processar o arquivo: " ++ "pdf corrompido")) ::
        (processLoop svcPdfRaises none [pngFile]).2.1 ∧
    (processLoop svcPdfRaises none ([pngFile] ++ pdfFile :: [pngFile])).2.2.2 =
      (processLoop svcPdfRaises none [pngFile]).2.2.2 +
        (processLoop svcPdfRaises none [pngFile]).2.2.2 + 1 :=
  ⟨⟨"pdfbytes", rfl, Or.inl ⟨rfl, rfl⟩⟩, rfl,
    (claim4_per_file_error_isolation svcPdfRaises none [pngFile] [pngFile]
      pdfFile "pdf corrompido"
      (Or.inl ⟨"pdfbytes", rfl, Or.inl ⟨rfl, rfl⟩⟩)).2.1,
    (claim4_per_file_error_isolation svcPdfRaises none [pngFile] [pngFile]
      pdfFile "pdf corrompido"
      (Or.inl ⟨"pdfbytes", rfl, Or.inl ⟨rfl, rfl⟩⟩)).2.2.1⟩

/-! ## Claim C5 -/

/-- C5 (code_bug): the module never loads (`main_py_parses = false`), so the
claimed per-request order is executed by no run.  Against the evident
intent, for a request that passes validation: the processing events are
reads, extractions and LLM calls only, so no extraction starts before every
validation is done; with a `None` collection handle the trace is exactly the
per-file validations in upload order, then the processing events, then one
log step, then the response (log event exactly once); but with a live
collection handle the log call raises `NotImplementedError` and the run ends
at the log step with a 500 — "log exactly once, then respond" fails even in
the intended code. -/
theorem claim5_linear_control_flow (svc : Services) (db : DbState)
    (req : RequestInput) (hval : (validateLoop req.files).2 = none) :
    main_py_parses = false ∧
    (∀ ev ∈ (processLoop svc req.query req.files).1, ∃ n,
      ev = .readEvt n ∨ ev = .extractEvt n ∨ ev = .llmEvt n) ∧
    (db.logs_collection = none →
      (process_resumes_endpoint svc db req).trace =
        req.files.map (fun f => Event.validateEvt f.filename) ++
          (processLoop svc req.query req.files).1 ++
          [Event.logEvt, Event.respondEvt] ∧
      ((process_resumes_endpoint svc db req).trace).count Event.logEvt = 1) ∧
    (db.logs_collection = some () →
      (process_resumes_endpoint svc db req).trace =
        req.files.map (fun f => Event.validateEvt f.filename) ++
          (processLoop svc req.query req.files).1 ++ [Event.logEvt] ∧
      (process_resumes_endpoint svc db req).result =
        .httpError ⟨500, notImplementedMsg⟩) := by
  refine ⟨rfl, processLoop_events svc req.query req.files, ?_, ?_⟩
  · intro hdb
    have hrun := endpoint_valid_none_eq svc db req hval hdb
    have htrace : (process_resumes_endpoint svc db req).trace =
        req.files.map (fun f => Event.validateEvt f.filename) ++
          (processLoop svc req.query req.files).1 ++
          [Event.logEvt, Event.respondEvt] := by
      rw [hrun]
      simp [validateLoop_none_trace req.files hval]
    refine ⟨htrace, ?_⟩
    rw [htrace]
    have h1 : (req.files.map (fun f => Event.validateEvt f.filename)).count
        Event.logEvt = 0 := by
      rw [List.count_eq_zero]
      intro hmem
      obtain ⟨g, hg, habs⟩ := List.mem_map.1 hmem
      exact Event.noConfusion habs
    have h2 : ((processLoop svc req.query req.files).1).count
        Event.logEvt = 0 := by
      rw [List.count_eq_zero]
      intro hmem
      obtain ⟨n, hn | hn | hn⟩ :=
        processLoop_events svc req.query req.files _ hmem
      all_goals exact Event.noConfusion hn
    rw [List.count_append, List.count_append, h1, h2]
    rfl
  · intro hdb
    have hrun := endpoint_valid_live_eq svc db req hval hdb
    constructor
    · rw [hrun]
      simp [validateLoop_none_trace req.files hval]
    · rw [hrun]

/-- Witness for C5's theorem at `reqNoQuery`, run once against a `None`
handle (full trace, one log event) and once against a live handle (run ends
at the log step with the 500). -/
theorem claim5_linear_control_flow_witness :
    (validateLoop reqNoQuery.files).2 = none ∧
    ((process_resumes_endpoint svcStub dbNone reqNoQuery).trace =
        reqNoQuery.files.map (fun f => Event.validateEvt f.filename) ++
          (processLoop svcStub reqNoQuery.query reqNoQuery.files).1 ++
          [Event.logEvt, Event.respondEvt] ∧
      ((process_resumes_endpoint svcStub dbNone reqNoQuery).trace).count
        Event.logEvt = 1) ∧
    ((process_resumes_endpoint svcStub dbStub reqNoQuery).trace =
        reqNoQuery.files.map (fun f => Event.validateEvt f.filename) ++
          (processLoop svcStub reqNoQuery.query reqNoQuery.files).1 ++
          [Event.logEvt] ∧
      (process_resumes_endpoint svcStub dbStub reqNoQuery).result =
        .httpError ⟨500, notImplementedMsg⟩) :=
  ⟨rfl,
    (claim5_linear_control_flow svcStub dbNone reqNoQuery rfl).2.2.1 rfl,
    (claim5_linear_control_flow svcStub dbStub reqNoQuery rfl).2.2.2 rfl⟩

/-! ## Claim C6 -/

/-- C6 (code_bug): fire-and-forget is the evident intent (the early return,
the try/except around the insert), but `if not logs_collection:`
(db_service.py, line 30) truth-tests the handle, and a live pymongo
`Collection` raises `NotImplementedError` from its `__bool__` — BEFORE the
`try`.  First conjunct: once the import-time connection succeeded, every
`log_usage` call raises to its caller, for every insert outcome and every
argument; the endpoint awaits it with no handler (main.py, line 178), so a
500 replaces the claimed unchanged response.  Second conjunct: only when the
connection failed (handle `None`) does `log_usage` return without effect as
the claim states. -/
theorem claim6_log_usage_raises_when_connected :
    (∀ (ins : Except String Unit) (r u : String) (q : Option String)
      (s : LogSummary),
      log_usage { logs_collection := some (), insertRes := ins } r u q s =
        .error notImplementedMsg) ∧
    (∀ (ins : Except String Unit) (r u : String) (q : Option String)
      (s : LogSummary),
      log_usage { logs_collection := none, insertRes := ins } r u q s =
        .ok .skipped) :=
  ⟨fun _ _ _ _ _ => rfl, fun _ _ _ _ _ => rfl⟩

/-! ## Claim C7 -/

/-- C7: for every PDF whose conversion yields a list of page images, the
extractor OCRs each page in page order and returns the concatenation of the
per-page texts — each prefixed by a page header, a failed page contributing
an error header in place of its text — stripped of leading and trailing
whitespace. -/
theorem claim7_pdf_page_concat (env : OcrEnv) (pdf_bytes : Bytes)
    (pages : List (Except String Bytes))
    (hconv : env.convertPdf pdf_bytes = .ok pages) :
    extract_text_from_pdf_bytes env pdf_bytes =
      pyStrip (concatTexts (pages.enum.map fun p =>
        match p.2 with
        | .ok png =>
            "\n--- Página " ++ toString (p.1 + 1) ++ " ---\n" ++
              extract_text_from_image_bytes env png
        | .error _ =>
            "\n--- Página " ++ toString (p.1 + 1) ++
              " (Erro na extração) ---\n")) := by
  have hfun : (fun p : Nat × Except String Bytes =>
      match p.2 with
      | .ok png =>
          "\n--- Página " ++ toString (p.1 + 1) ++ " ---\n" ++
            extract_text_from_image_bytes env png
      | .error _ =>
          "\n--- Página " ++ toString (p.1 + 1) ++
            " (Erro na extração) ---\n") =
      fun p => pdfPageChunk env p.1 p.2 := by
    funext p
    rcases p with ⟨i, pg⟩
    cases pg <;> rfl
  simp only [extract_text_from_pdf_bytes, hconv]
  rw [hfun, pdfLoop_spec env pages 0]
  rfl

/-- Witness for C7: a two-page conversion with a failing second page yields
the stripped header-text concatenation. -/
theorem claim7_pdf_page_concat_witness :
    oenvStub.convertPdf "x" = .ok [.ok "png1", .error "falha no save"] ∧
    extract_text_from_pdf_bytes oenvStub "x" =
      "--- Página 1 ---\nocr de png1\n--- Página 2 (Erro na extração) ---" :=
  ⟨rfl,
    (claim7_pdf_page_concat oenvStub "x" [.ok "png1", .error "falha no save"]
      rfl).trans (by decide)⟩

/-! ## Claim C8 -/

/-- C8 (as stated) is false on the code: two shared states with the SAME
model handle produce different system behaviour — with the faithful
`log_usage`, a live collection handle 500s every validated request (the
unhandled `NotImplementedError` from the truth test) while a `None` handle
lets it respond — because the Mongo handle kept at module level by
db_service.py is a second piece of cross-request shared state. -/
theorem claim8_counterexample :
    sharedBoth.text2text_generator = sharedNoDb.text2text_generator ∧
    systemRun sharedBoth oenvStub lenvStub (.ok ()) reqNoQuery ≠
      systemRun sharedNoDb oenvStub lenvStub (.ok ()) reqNoQuery :=
  ⟨rfl, by decide⟩

/-- C8 (amended): the cross-request shared state is exactly the two handles,
both created eagerly at module import (not lazily): the model handle and the
Mongo collection handle.  A run's entire outcome is determined by those two
handles together — in particular it does not depend on the Mongo insert
outcome, which sits in dead code behind the raising truth test — and the
counterexample shows the collection handle is independently observable. -/
theorem claim8_shared_state (s1 s2 : SharedState) (oenv : OcrEnv)
    (lenv : LlmEnv) (ins1 ins2 : Except String Unit) (req : RequestInput)
    (hm : s1.text2text_generator = s2.text2text_generator)
    (hc : s1.logs_collection = s2.logs_collection) :
    systemRun s1 oenv lenv ins1 req = systemRun s2 oenv lenv ins2 req := by
  have hsvc : mkServices s1 oenv lenv = mkServices s2 oenv lenv := by
    unfold mkServices generate_summary analyze_resume_with_query
    rw [hm]
  unfold systemRun
  rw [hsvc]
  apply endpoint_congr_db
  intro t
  cases hcc : s2.logs_collection with
  | none =>
      rw [log_usage_none ⟨s1.logs_collection, ins1⟩ (hc.trans hcc),
        log_usage_none ⟨none, ins2⟩ rfl]
  | some u =>
      cases u
      rw [log_usage_live ⟨s1.logs_collection, ins1⟩ (hc.trans hcc),
        log_usage_live ⟨some (), ins2⟩ rfl]

/-- Witness for C8 (amended): equal handles and different insert outcomes
give identical runs. -/
theorem claim8_shared_state_witness :
    sharedBoth.text2text_generator = sharedBoth.text2text_generator ∧
    systemRun sharedBoth oenvStub lenvStub (.ok ()) reqNoQuery =
      systemRun sharedBoth oenvStub lenvStub (.error "falha no insert")
        reqNoQuery :=
  ⟨rfl, claim8_shared_state sharedBoth sharedBoth oenvStub lenvStub (.ok ())
    (.error "falha no insert") reqNoQuery rfl rfl⟩

/-! ## Claim C9 -/

/-- C9: the OCR extractors never raise (they are total, every internal
exception being caught), and on the claim's two failure modes — the image
read raising, the PDF-to-image conversion raising — they return the empty
string. -/
theorem claim9_ocr_never_raises (env : OcrEnv) (image_bytes pdf_bytes : Bytes)
    (e1 e2 : String) :
    (env.readImage image_bytes = .error e1 →
      extract_text_from_image_bytes env image_bytes = "") ∧
    (env.convertPdf pdf_bytes = .error e2 →
      extract_text_from_pdf_bytes env pdf_bytes = "") := by
  constructor
  · intro h
    simp [extract_text_from_image_bytes, h]
  · intro h
    simp [extract_text_from_pdf_bytes, h]

/-- Witness for C9 at an environment whose image read and PDF conversion
both raise. -/
theorem claim9_ocr_never_raises_witness :
    oenvFail.readImage "b1" = .error "imagem ilegível" ∧
    oenvFail.convertPdf "b2" = .error "conversão falhou" ∧
    extract_text_from_image_bytes oenvFail "b1" = "" ∧
    extract_text_from_pdf_bytes oenvFail "b2" = "" :=
  ⟨rfl, rfl,
    (claim9_ocr_never_raises oenvFail "b1" "b2" "imagem ilegível"
      "conversão falhou").1 rfl,
    (claim9_ocr_never_raises oenvFail "b1" "b2" "imagem ilegível"
      "conversão falhou").2 rfl⟩

/-! ## Claim C10 -/

/-- C10 (code_bug): the blank-text branch lives in the module that never
imports (`main_py_parses = false`), so it never executes.  Against the
evident intent: a file whose extracted text is empty or whitespace-only is
answered with the fixed placeholder string in the mode-appropriate field,
emits no LLM event (the model is not invoked for it), and is counted as
failed, not processed. -/
theorem claim10_blank_text_short_circuit (svc : Services)
    (query : Option String) (f : FileUpload) (bs text : String)
    (rest : List FileUpload) (hread : f.readRes = .ok bs)
    (hext : extractsTo svc f bs text) (hclose : f.closeRes = .ok ())
    (htext : pyStrip text = "") :
    main_py_parses = false ∧
    processOne svc query f =
      ([.readEvt f.filename, .extractEvt f.filename],
        (if queryTruthy query then
          FileResult.resumeAnalysis f.filename
            "Nenhum texto extraído do arquivo."
        else
          FileResult.resumeSummary f.filename
            "Nenhum texto extraído do arquivo."),
        false) ∧
    (processLoop svc query (f :: rest)).2.2.2 =
      (processLoop svc query rest).2.2.2 + 1 ∧
    (processLoop svc query (f :: rest)).2.2.1 =
      (processLoop svc query rest).2.2.1 := by
  have h1 := processOne_blank svc query f bs text hread hext hclose htext
  refine ⟨rfl, ?_, ?_, ?_⟩
  · rw [h1]
    rfl
  · simp [processLoop, h1]
  · simp [processLoop, h1]

/-- Witness for C10: with `svcBlankPdf` the PDF text is whitespace-only and
the placeholder summary result is produced, counted as failed. -/
theorem claim10_blank_text_short_circuit_witness :
    pyStrip "  \n " = "" ∧
    processOne svcBlankPdf none pdfFile =
      ([.readEvt "cv.pdf", .extractEvt "cv.pdf"],
        (if queryTruthy none then
          FileResult.resumeAnalysis "cv.pdf" "Nenhum texto extraído do arquivo."
        else
          FileResult.resumeSummary "cv.pdf" "Nenhum texto extraído do arquivo."),
        false) ∧
    (processLoop svcBlankPdf none [pdfFile]).2.2.2 =
      (processLoop svcBlankPdf none ([] : List FileUpload)).2.2.2 + 1 :=
  ⟨by decide,
    (claim10_blank_text_short_circuit svcBlankPdf none pdfFile "pdfbytes"
      "  \n " [] rfl (Or.inl ⟨rfl, rfl⟩) rfl (by decide)).2.1,
    (claim10_blank_text_short_circuit svcBlankPdf none pdfFile "pdfbytes"
      "  \n " [] rfl (Or.inl ⟨rfl, rfl⟩) rfl (by decide)).2.2.1⟩

end RagTeddy
